import Mathlib

set_option maxRecDepth 100000

/-!
Shallow embedding of the time-synchronized PCM `AudioPlayer` from
`linux_voice_assistant/sendspin_bridge.py`, together with theorems that
settle the frozen claims about it.

Modelling conventions:
* Python `int` is `Int` (or `Nat` where the source value is a length or
  count that is non-negative by construction).
* Python `float` arithmetic is modelled exactly over rationals, using the
  explicit fraction type `Frac` below (numerator/denominator pairs, no
  normalisation).  Every concrete trace used in a theorem only exercises
  fraction values on which IEEE-754 double arithmetic is exact (integers,
  and small dyadic/decimal fractions), so the rational model and the
  float behaviour of the source coincide on those traces.
* Python `bytes` is `List Nat` (one entry per byte).
* The event-loop clock reads (`self._loop.time()`) are modelled as
  explicit integer microsecond parameters, one per textual read site.
* The two injected time-conversion callables are parameters
  `ctime` (serverTime -> clientTime) and `stime` (clientTime -> serverTime).
* The sounddevice output buffer is modelled as the list of bytes the
  callback writes, in order; the callback returns it next to the state.
* Exceptions: the only exception reachable in the modelled fragment is the
  `ValueError` raised when `_last_output_frame` has a stale length and is
  slice-assigned into a frame slot; it is modelled by an error flag that
  the callback's `except` handler turns into silence padding, exactly as
  the source's handler does.
-/

namespace LVA

/-- Exact fraction type used to model Python float arithmetic.  The
denominator is kept positive by construction; no gcd normalisation is
performed (comparisons are by cross-multiplication). -/
structure Frac where
  num : Int
  den : Int
deriving DecidableEq, Repr

def Frac.ofInt (n : Int) : Frac := ⟨n, 1⟩

def Frac.mkOf (n d : Int) : Frac := if d < 0 then ⟨-n, -d⟩ else ⟨n, d⟩

def Frac.add (a b : Frac) : Frac := ⟨a.num * b.den + b.num * a.den, a.den * b.den⟩

def Frac.sub (a b : Frac) : Frac := ⟨a.num * b.den - b.num * a.den, a.den * b.den⟩

def Frac.mul (a b : Frac) : Frac := ⟨a.num * b.num, a.den * b.den⟩

def Frac.divf (a b : Frac) : Frac := Frac.mkOf (a.num * b.den) (a.den * b.num)

def Frac.lef (a b : Frac) : Prop := a.num * b.den ≤ b.num * a.den

def Frac.ltf (a b : Frac) : Prop := a.num * b.den < b.num * a.den

instance (a b : Frac) : Decidable (Frac.lef a b) := by
  unfold Frac.lef; infer_instance

instance (a b : Frac) : Decidable (Frac.ltf a b) := by
  unfold Frac.ltf; infer_instance

def Frac.absf (a : Frac) : Frac := ⟨|a.num|, a.den⟩

/-- Python `int(x)`: truncation toward zero. -/
def Frac.truncf (a : Frac) : Int := Int.tdiv a.num a.den

/-- Python `math.floor` / the floor used to define rounding. -/
def Frac.floorf (a : Frac) : Int := a.num / a.den

/-- Python `min(a, b)` on floats (returns the first argument on ties). -/
def Frac.minf (a b : Frac) : Frac := if Frac.lef a b then a else b

/-- Python `max(a, b)` on floats (returns the first argument on ties). -/
def Frac.maxf (a b : Frac) : Frac := if Frac.lef b a then a else b

/-- Python `round(x)`: round half to even. -/
def Frac.pyRound (a : Frac) : Int :=
  let f := Frac.floorf a
  let r := Frac.sub a (Frac.ofInt f)
  if Frac.ltf r ⟨1, 2⟩ then f
  else if Frac.ltf ⟨1, 2⟩ r then f + 1
  else if f % 2 = 0 then f else f + 1

/-- PCM format descriptor: the two attributes of the external `PCMFormat`
object that the player reads (`sample_rate` and `frame_size`). -/
structure PCMFormat where
  sampleRate : Nat
  frameSize : Nat
deriving DecidableEq, Repr

/-- Source `_QueuedChunk`: a server timestamp plus raw PCM bytes. -/
structure QueuedChunk where
  serverTimestampUs : Int
  audioData : List Nat
deriving DecidableEq, Repr

/-- Source `PlaybackState` state machine. -/
inductive PlaybackState where
  | initializing
  | waitingForStart
  | playing
deriving DecidableEq, Repr

/-- Source `_SyncErrorFilter` (alpha is fixed to 1/10 as in the source). -/
structure SyncErrorFilter where
  value : Frac
  initialized : Bool
deriving DecidableEq, Repr

/-- The mutable state of `AudioPlayer`.  Field names follow the Python
attributes (leading underscore dropped). -/
structure PlayerState where
  device : Option Int
  format : Option PCMFormat
  queue : List QueuedChunk
  streamExists : Bool
  closed : Bool
  streamStarted : Bool
  volume : Int
  muted : Bool
  currentChunk : Option QueuedChunk
  currentChunkOffset : Nat
  expectedNextTimestamp : Option Int
  queuedDurationUs : Int
  dacLoopCalibrations : List (Int × Int)
  lastKnownPlaybackPositionUs : Int
  lastDacCalibrationTimeUs : Int
  playbackState : PlaybackState
  scheduledStartLoopTimeUs : Option Int
  scheduledStartDacTimeUs : Option Int
  serverTsCursorUs : Int
  serverTsCursorRemainder : Nat
  firstServerTimestampUs : Option Int
  earlyStartSuspect : Bool
  hasReanchored : Bool
  insertEveryNFrames : Nat
  dropEveryNFrames : Nat
  framesUntilNextInsert : Int
  framesUntilNextDrop : Int
  lastOutputFrame : List Nat
  syncErrorFilter : SyncErrorFilter
  syncErrorFilteredUs : Frac
  lastReanchorLoopTimeUs : Int
  lastSyncErrorLogUs : Int
  framesInsertedSinceLog : Nat
  framesDroppedSinceLog : Nat
  clearRequested : Bool
deriving DecidableEq, Repr

/-- Source `AudioPlayer.__init__`: the freshly constructed state. -/
def initState (device : Option Int) : PlayerState where
  device := device
  format := none
  queue := []
  streamExists := false
  closed := false
  streamStarted := false
  volume := 60
  muted := false
  currentChunk := none
  currentChunkOffset := 0
  expectedNextTimestamp := none
  queuedDurationUs := 0
  dacLoopCalibrations := []
  lastKnownPlaybackPositionUs := 0
  lastDacCalibrationTimeUs := 0
  playbackState := PlaybackState.initializing
  scheduledStartLoopTimeUs := none
  scheduledStartDacTimeUs := none
  serverTsCursorUs := 0
  serverTsCursorRemainder := 0
  firstServerTimestampUs := none
  earlyStartSuspect := false
  hasReanchored := false
  insertEveryNFrames := 0
  dropEveryNFrames := 0
  framesUntilNextInsert := 0
  framesUntilNextDrop := 0
  lastOutputFrame := []
  syncErrorFilter := ⟨Frac.ofInt 0, false⟩
  syncErrorFilteredUs := Frac.ofInt 0
  lastReanchorLoopTimeUs := 0
  lastSyncErrorLogUs := 0
  framesInsertedSinceLog := 0
  framesDroppedSinceLog := 0
  clearRequested := false

/-- Source `AudioPlayer.set_format`: stores the format, closes any previous
stream, resets `_stream_started`, and opens a fresh output stream. -/
def setFormat (fmt : PCMFormat) (s : PlayerState) : PlayerState :=
  { s with format := some fmt, streamExists := true, streamStarted := false }

/-- Source `AudioPlayer.set_volume`: clamp to [0, 100] and store. -/
def setVolume (v : Int) (m : Bool) (s : PlayerState) : PlayerState :=
  { s with volume := max 0 (min 100 v), muted := m }

/-- Source `AudioPlayer.stop`: mark closed and close the stream. -/
def stopPlayer (s : PlayerState) : PlayerState :=
  { s with closed := true, streamExists := false }

/-- Source `AudioPlayer.clear`: stop (not close) the stream, drain the queue and
reset the playback/scheduling state.  Volume, mute, the closed flag, the
format and the device binding are untouched. -/
def clear (s : PlayerState) : PlayerState :=
  { s with
    clearRequested := false
    streamStarted := false
    queue := []
    playbackState := PlaybackState.initializing
    currentChunk := none
    currentChunkOffset := 0
    expectedNextTimestamp := none
    queuedDurationUs := 0
    dacLoopCalibrations := []
    lastKnownPlaybackPositionUs := 0
    lastDacCalibrationTimeUs := 0
    scheduledStartLoopTimeUs := none
    scheduledStartDacTimeUs := none
    serverTsCursorUs := 0
    serverTsCursorRemainder := 0
    firstServerTimestampUs := none
    earlyStartSuspect := false
    hasReanchored := false
    insertEveryNFrames := 0
    dropEveryNFrames := 0
    framesUntilNextInsert := 0
    framesUntilNextDrop := 0
    lastOutputFrame := []
    syncErrorFilter := ⟨Frac.ofInt 0, false⟩
    syncErrorFilteredUs := Frac.ofInt 0
    lastReanchorLoopTimeUs := 0
    lastSyncErrorLogUs := 0
    framesInsertedSinceLog := 0
    framesDroppedSinceLog := 0 }

/-- Source `_SyncErrorFilter.update` followed by `_smooth_sync_error`'s store of
`filter.offset` into `_sync_error_filtered_us`.  (The `now` / `max_error`
arguments of the Python method are unused by the filter and are dropped.) -/
def smoothSyncError (errorUs : Int) (s : PlayerState) : PlayerState :=
  let f : SyncErrorFilter :=
    if ¬s.syncErrorFilter.initialized then ⟨Frac.ofInt errorUs, true⟩
    else
      ⟨Frac.add (Frac.mul ⟨1, 10⟩ (Frac.ofInt errorUs))
        (Frac.mul (Frac.sub (Frac.ofInt 1) ⟨1, 10⟩) s.syncErrorFilter.value), true⟩
  { s with syncErrorFilter := f, syncErrorFilteredUs := f.value }

/-- The guard of the re-anchor branch of `_update_correction_schedule`:
after smoothing, the filtered error is outside the deadband, above the
re-anchor threshold, the player is PLAYING, and the cooldown has elapsed.
`nowUs` is the loop-time read the method performs. -/
def reanchorFires (nowUs errorUs : Int) (s : PlayerState) : Bool :=
  match s.format with
  | none => false
  | some fmt =>
    if fmt.sampleRate = 0 then false
    else
      let s1 := smoothSyncError errorUs s
      let absErr := Frac.absf s1.syncErrorFilteredUs
      if Frac.lef absErr (Frac.ofInt 2000) then false
      else
        decide (Frac.ltf (Frac.ofInt 500000) absErr
          ∧ s1.playbackState = PlaybackState.playing
          ∧ nowUs - s1.lastReanchorLoopTimeUs > 5000000)

/-- Source `AudioPlayer._update_correction_schedule`.  `nowUs` is the loop-time
read at the cooldown check. -/
def updateCorrectionSchedule (nowUs errorUs : Int) (s : PlayerState) : PlayerState :=
  match s.format with
  | none => s
  | some fmt =>
    if fmt.sampleRate = 0 then s
    else
      let s := smoothSyncError errorUs s
      let absErr := Frac.absf s.syncErrorFilteredUs
      if Frac.lef absErr (Frac.ofInt 2000) then
        { s with insertEveryNFrames := 0, dropEveryNFrames := 0 }
      else if Frac.ltf (Frac.ofInt 500000) absErr
          ∧ s.playbackState = PlaybackState.playing
          ∧ nowUs - s.lastReanchorLoopTimeUs > 5000000 then
        -- the source stamps the cooldown and then calls `self.clear()`
        clear { s with
          insertEveryNFrames := 0
          dropEveryNFrames := 0
          framesUntilNextInsert := 0
          framesUntilNextDrop := 0
          lastReanchorLoopTimeUs := nowUs }
      else
        let framesError := Frac.divf
          (Frac.mul absErr (Frac.ofInt fmt.sampleRate)) (Frac.ofInt 1000000)
        let desired := Frac.divf framesError (Frac.ofInt 2)
        let maxCorr := Frac.mul (Frac.ofInt fmt.sampleRate) ⟨4, 100⟩
        let corrPerSec := Frac.minf desired maxCorr
        let intervalFrames : Nat :=
          if Frac.ltf (Frac.ofInt 0) corrPerSec then
            max (Frac.truncf (Frac.divf (Frac.ofInt fmt.sampleRate) corrPerSec)).toNat 1
          else
            -- `int(1.0 / max(0.04, 0.001))` evaluates to 25 (unreachable:
            -- this branch needs corrections_per_sec = 0, impossible when
            -- the filtered error is outside the deadband)
            25
        if Frac.ltf (Frac.ofInt 0) s.syncErrorFilteredUs then
          { s with dropEveryNFrames := intervalFrames, insertEveryNFrames := 0 }
        else
          { s with insertEveryNFrames := intervalFrames, dropEveryNFrames := 0 }

/-- The deque entry `self._dac_loop_calibrations[-2]`, or `(0, 0)` when
fewer than two entries exist. -/
def secondToLast (l : List (Int × Int)) : Int × Int :=
  if l.length ≥ 2 then l.dropLast.getLastD (0, 0) else (0, 0)

/-- Source `AudioPlayer._estimate_loop_time_for_dac_time`. -/
def estimateLoopTimeForDacTime (dacTimeUs : Int) (s : PlayerState) : Int :=
  match s.dacLoopCalibrations.getLast? with
  | none => 0
  | some (dacRef, loopRef) =>
    if loopRef = 0 then 0
    else
      let p := secondToLast s.dacLoopCalibrations
      let dacPrev := p.1
      let loopPrev := p.2
      let loopPerDac : Frac :=
        if dacPrev ≠ 0 ∧ dacRef ≠ dacPrev then
          Frac.maxf ⟨999, 1000⟩ (Frac.minf ⟨1001, 1000⟩
            (Frac.divf (Frac.ofInt (loopRef - loopPrev)) (Frac.ofInt (dacRef - dacPrev))))
        else Frac.ofInt 1
      Frac.pyRound (Frac.add (Frac.ofInt loopRef)
        (Frac.mul (Frac.ofInt (dacTimeUs - dacRef)) loopPerDac))

/-- Source `AudioPlayer._estimate_dac_time_for_server_timestamp`. -/
def estimateDacTimeForServerTimestamp (ctime : Int → Int) (serverTimestampUs : Int)
    (s : PlayerState) : Int :=
  if s.lastDacCalibrationTimeUs = 0 then 0
  else
    let loopTimeUs := ctime serverTimestampUs
    match s.dacLoopCalibrations.getLast? with
    | none => 0
    | some (dacRef, loopRef) =>
      if loopRef = 0 then 0
      else
        let p := secondToLast s.dacLoopCalibrations
        let dacPrev := p.1
        let loopPrev := p.2
        let dacPerLoop : Frac :=
          if loopPrev ≠ 0 ∧ dacPrev ≠ 0 ∧ loopRef ≠ loopPrev then
            Frac.maxf ⟨999, 1000⟩ (Frac.minf ⟨1001, 1000⟩
              (Frac.divf (Frac.ofInt (dacRef - dacPrev)) (Frac.ofInt (loopRef - loopPrev))))
          else Frac.ofInt 1
        Frac.pyRound (Frac.add (Frac.ofInt dacRef)
          (Frac.mul (Frac.ofInt (loopTimeUs - loopRef)) dacPerLoop))

/-- Source `AudioPlayer._update_playback_position_from_dac`.  `dacUs` and
`loopUs` are the microsecond values of the two clock reads made at the
top of the method. -/
def updatePlaybackPositionFromDac (ctime stime : Int → Int) (dacUs loopUs : Int)
    (s : PlayerState) : PlayerState :=
  let cals :=
    if s.dacLoopCalibrations.length = 100 then
      s.dacLoopCalibrations.tail ++ [(dacUs, loopUs)]
    else s.dacLoopCalibrations ++ [(dacUs, loopUs)]
  let s := { s with dacLoopCalibrations := cals, lastDacCalibrationTimeUs := loopUs }
  let loopAtDac := estimateLoopTimeForDacTime dacUs s
  let loopAtDac := if loopAtDac = 0 then loopUs else loopAtDac
  let s := { s with lastKnownPlaybackPositionUs := stime loopAtDac }
  -- `if self._scheduled_start_dac_time_us is None and self._scheduled_start_loop_time_us`
  -- (the second conjunct is Python truthiness: not None and nonzero)
  if s.scheduledStartDacTimeUs = none ∧ s.scheduledStartLoopTimeUs.getD 0 ≠ 0 then
    let loopStart := s.scheduledStartLoopTimeUs.getD 0
    let estDac := estimateDacTimeForServerTimestamp ctime (stime loopStart) s
    if estDac ≠ 0 then { s with scheduledStartDacTimeUs := some estDac } else s
  else s

/-- Source `AudioPlayer._initialize_current_chunk` (also inlined in
`_skip_input_frames`): pop the queue head into `current_chunk` and seed
the server-timeline cursor on first use.  Callers only invoke this with a
non-empty queue, mirroring the source's `queue.empty()` checks. -/
def initCurrentChunk (s : PlayerState) : PlayerState :=
  match s.queue with
  | [] => s
  | c :: rest =>
    let s := { s with currentChunk := some c, currentChunkOffset := 0, queue := rest }
    if s.serverTsCursorUs = 0 then { s with serverTsCursorUs := c.serverTimestampUs }
    else s

/-- Source `AudioPlayer._advance_server_cursor_frames`.  The fractional
remainder is kept in units of µs·sample_rate exactly as in the source. -/
def advanceServerCursorFrames (fmt : PCMFormat) (frames : Nat) (s : PlayerState) :
    PlayerState :=
  if frames = 0 then s
  else
    let rem := s.serverTsCursorRemainder + frames * 1000000
    if rem ≥ fmt.sampleRate then
      { s with
        serverTsCursorRemainder := rem % fmt.sampleRate
        serverTsCursorUs := s.serverTsCursorUs + (rem / fmt.sampleRate : Nat) }
    else { s with serverTsCursorRemainder := rem }

/-- Source `AudioPlayer._advance_finished_chunk`. -/
def advanceFinishedChunk (fmt : PCMFormat) (s : PlayerState) : PlayerState :=
  match s.currentChunk with
  | none => s
  | some c =>
    let chunkFrames := c.audioData.length / fmt.frameSize
    let chunkDurationUs : Int := ((chunkFrames * 1000000) / fmt.sampleRate : Nat)
    { s with
      queuedDurationUs := max 0 (s.queuedDurationUs - chunkDurationUs)
      currentChunk := none
      currentChunkOffset := 0 }

/-- Source `AudioPlayer._read_one_input_frame`: read and consume a single frame;
returns `none` when no data is available.  The caller guarantees a format
is set (the source returns `None` when it is not). -/
def readOneInputFrame (fmt : PCMFormat) (s : PlayerState) :
    PlayerState × Option (List Nat) :=
  if fmt.frameSize = 0 then (s, none)
  else
    let step : PlayerState → PlayerState × Option (List Nat) := fun s =>
      match s.currentChunk with
      | none => (s, none)
      | some c =>
        let data := c.audioData
        if s.currentChunkOffset ≥ data.length then
          (advanceFinishedChunk fmt s, none)
        else
          let start := s.currentChunkOffset
          let stop := min (start + fmt.frameSize) data.length
          let frame := (data.drop start).take (stop - start)
          let s := { s with currentChunkOffset := stop }
          let s := advanceServerCursorFrames fmt 1 s
          let s := if s.currentChunkOffset ≥ data.length then advanceFinishedChunk fmt s
                   else s
          let frame := if frame.length < fmt.frameSize then
                         frame ++ List.replicate (fmt.frameSize - frame.length) 0
                       else frame
          (s, some frame)
    match s.currentChunk with
    | none =>
      if s.queue.isEmpty then (s, none)
      else step (initCurrentChunk s)
    | some _ => step s

/-- The `while` loop of `AudioPlayer._read_input_frames_bulk`.  Returns
the new state, the bytes written (real data followed by any silence
padding) and the number of real (non-padding) bytes.  The fuel argument
bounds the number of loop iterations; `readInputFramesBulk` passes enough
fuel for the loop to run to completion (see `readBulkLoop_complete`). -/
def readBulkLoop (fmt : PCMFormat) : Nat → Nat → PlayerState →
    PlayerState × List Nat × Nat
  | 0, _, s => (s, [], 0)
  | fuel + 1, bytesLeft, s =>
    if bytesLeft = 0 then (s, [], 0)
    else
      let s := if s.currentChunk.isNone ∧ ¬s.queue.isEmpty then initCurrentChunk s else s
      match s.currentChunk with
      | none =>
        -- queue empty: fill the remainder with silence and break
        (s, List.replicate bytesLeft 0, 0)
      | some c =>
        let avail := c.audioData.length - s.currentChunkOffset
        let toRead := min avail bytesLeft
        let dataRead := (c.audioData.drop s.currentChunkOffset).take toRead
        let s := { s with currentChunkOffset := s.currentChunkOffset + toRead }
        let framesRead := toRead / fmt.frameSize
        let s := advanceServerCursorFrames fmt framesRead s
        let s := if s.currentChunkOffset ≥ c.audioData.length then
                   advanceFinishedChunk fmt s
                 else s
        let r := readBulkLoop fmt fuel (bytesLeft - toRead) s
        (r.1, dataRead ++ r.2.1, toRead + r.2.2)

/-- Source `AudioPlayer._read_input_frames_bulk`. -/
def readInputFramesBulk (fmt : PCMFormat) (nFrames : Nat) (s : PlayerState) :
    PlayerState × List Nat :=
  if nFrames = 0 then (s, [])
  else
    let total := nFrames * fmt.frameSize
    let r := readBulkLoop fmt (total + 2 * s.queue.length + 2) total s
    let s := r.1
    let data := r.2.1
    let realBytes := r.2.2
    let s := if realBytes ≥ fmt.frameSize then
               { s with lastOutputFrame := (data.take realBytes).drop (realBytes - fmt.frameSize) }
             else s
    (s, data)

/-- The `while` loop of `AudioPlayer._skip_input_frames`.  Fuel-bounded;
`skipInputFrames` passes enough fuel for completion. -/
def skipLoop (fmt : PCMFormat) : Nat → Nat → PlayerState → PlayerState
  | 0, _, s => s
  | fuel + 1, toSkip, s =>
    if toSkip = 0 then s
    else
      match s.currentChunk with
      | none =>
        if s.queue.isEmpty then s
        else skipLoop fmt fuel toSkip (initCurrentChunk s)
      | some c =>
        let remBytes := c.audioData.length - s.currentChunkOffset
        let remFrames := remBytes / fmt.frameSize
        if remFrames = 0 then skipLoop fmt fuel toSkip (advanceFinishedChunk fmt s)
        else
          let take := min remFrames toSkip
          let s := { s with currentChunkOffset := s.currentChunkOffset + take * fmt.frameSize }
          let s := advanceServerCursorFrames fmt take s
          let s := if s.currentChunkOffset ≥ c.audioData.length then
                     advanceFinishedChunk fmt s
                   else s
          skipLoop fmt fuel (toSkip - take) s

/-- Source `AudioPlayer._skip_input_frames`. -/
def skipInputFrames (fmt : PCMFormat) (framesToSkip : Nat) (s : PlayerState) :
    PlayerState :=
  skipLoop fmt (framesToSkip + 2 * s.queue.length + 2) framesToSkip s

/-- Source `AudioPlayer._handle_start_gating`.  `dacUs` is the DAC time the
callback received; `loopUs` is the loop-time read the method performs in
its loop-gated branch.  Returns the state and the silence bytes written. -/
def handleStartGating (fmt : PCMFormat) (dacUs loopUs : Int) (frames : Nat)
    (s : PlayerState) : PlayerState × List Nat :=
  let gate : Int → Int → Bool → PlayerState × List Nat := fun target current canDrop =>
    let delta := target - current
    let sOut :=
      if delta > 0 then
        let framesUntilStart := ((delta * fmt.sampleRate + 999999) / 1000000).toNat
        let framesToSilence := min framesUntilStart frames
        (s, List.replicate (framesToSilence * fmt.frameSize) 0)
      else if delta < 0 ∧ canDrop then
        if ¬(s.earlyStartSuspect ∧ ¬s.hasReanchored) then
          let framesToDrop := (((-delta) * fmt.sampleRate + 999999) / 1000000).toNat
          ({ (skipInputFrames fmt framesToDrop s) with
             playbackState := PlaybackState.playing }, [])
        else (s, [])
      else (s, [])
    let s1 := sOut.1
    let s1 := if current ≥ target then { s1 with playbackState := PlaybackState.playing }
              else s1
    (s1, sOut.2)
  match s.scheduledStartDacTimeUs with
  | some startDac =>
    -- `use_dac_gating` requires a positive DAC time reading
    if dacUs > 0 then gate startDac dacUs true
    else
      match s.scheduledStartLoopTimeUs with
      | some startLoop => gate startLoop loopUs false
      | none => (s, [])
  | none =>
    match s.scheduledStartLoopTimeUs with
    | some startLoop => gate startLoop loopUs false
    | none => (s, [])

/-- The state mutations of a drop event in the slow path of
`AudioPlayer._audio_callback`: two `_read_one_input_frame` calls whose
results are discarded, then the dropped-frames statistic bump.  The frame
the event then emits is `lastOutputFrame` of this state (see `slowLoop`). -/
def dropEventConsume (fmt : PCMFormat) (s : PlayerState) : PlayerState :=
  let s := (readOneInputFrame fmt s).1
  let s := (readOneInputFrame fmt s).1
  { s with framesDroppedSinceLog := s.framesDroppedSinceLog + 1 }

/-- Result of the slow-path `while` loop of the audio callback. -/
structure SlowLoopResult where
  state : PlayerState
  out : List Nat
  insertCtr : Int
  dropCtr : Int
  framesRem : Nat
  err : Bool
deriving Repr

/-- The slow-path `while frames_remaining > 0` loop of
`AudioPlayer._audio_callback` (sync corrections active).  `insertN` /
`dropN` are the snapshots of the correction plan taken at the top of the
callback.  The `err` flag models the `ValueError` raised when
`_last_output_frame` does not fill a frame slot exactly (possible only
after a hot format change); the callback's `except` handler consumes it.
Fuel bounds the iterations; `frames` is always sufficient
(each iteration emits at least one frame, see `slowLoop_complete`). -/
def slowLoop (fmt : PCMFormat) (insertN dropN : Nat) :
    Nat → Int → Int → Nat → PlayerState → SlowLoopResult
  | 0, ic, dc, rem, s => ⟨s, [], ic, dc, rem, false⟩
  | fuel + 1, ic, dc, rem, s =>
    if rem = 0 then ⟨s, [], ic, dc, 0, false⟩
    else
      let framesUntilInsert : Int := if insertN > 0 then ic else (rem : Int) + 1
      let framesUntilDrop : Int := if dropN > 0 then dc else (rem : Int) + 1
      let nextEventIn : Int := min (min framesUntilInsert framesUntilDrop) (rem : Int)
      let seg :=
        if nextEventIn > 0 then
          let n := nextEventIn.toNat
          let r := readInputFramesBulk fmt n s
          (r.1, r.2, ic - nextEventIn, dc - nextEventIn, rem - n)
        else (s, ([] : List Nat), ic, dc, rem)
      let s := seg.1
      let segOut := seg.2.1
      let ic := seg.2.2.1
      let dc := seg.2.2.2.1
      let rem := seg.2.2.2.2
      if rem = 0 then ⟨s, segOut, ic, dc, 0, false⟩
      else if dc ≤ 0 ∧ dropN > 0 then
        let s := dropEventConsume fmt s
        if s.lastOutputFrame.length = fmt.frameSize then
          let r := slowLoop fmt insertN dropN fuel (ic - 1) (dropN : Int) (rem - 1) s
          ⟨r.state, segOut ++ s.lastOutputFrame ++ r.out, r.insertCtr, r.dropCtr,
            r.framesRem, r.err⟩
        else ⟨s, segOut, ic, dc, rem, true⟩
      else if ic ≤ 0 ∧ insertN > 0 then
        let s := { s with framesInsertedSinceLog := s.framesInsertedSinceLog + 1 }
        if s.lastOutputFrame.length = fmt.frameSize then
          let r := slowLoop fmt insertN dropN fuel (insertN : Int) (dc - 1) (rem - 1) s
          ⟨r.state, segOut ++ s.lastOutputFrame ++ r.out, r.insertCtr, r.dropCtr,
            r.framesRem, r.err⟩
        else ⟨s, segOut, ic, dc, rem, true⟩
      else
        -- unreachable: nextEventIn ≤ 0 forces one of the two event
        -- branches to fire (in Python this would spin forever)
        ⟨s, segOut, ic, dc, rem, true⟩

/-- The buffer-filling `else` branch of the audio callback (playback not
gated): fast bulk path when both correction counters are zero, otherwise
the slow drop/insert path.  Returns state, bytes written, and the
error flag from the slow path. -/
def fillPlayingPath (fmt : PCMFormat) (frames : Nat) (s : PlayerState) :
    PlayerState × List Nat × Bool :=
  let insertN := s.insertEveryNFrames
  let dropN := s.dropEveryNFrames
  if insertN = 0 ∧ dropN = 0 then
    let r := readInputFramesBulk fmt frames s
    (r.1, r.2, false)
  else
    let s := if s.framesUntilNextInsert ≤ 0 ∧ insertN > 0 then
               { s with framesUntilNextInsert := (insertN : Int) }
             else s
    let s := if s.framesUntilNextDrop ≤ 0 ∧ dropN > 0 then
               { s with framesUntilNextDrop := (dropN : Int) }
             else s
    let s := if s.lastOutputFrame = [] then
               { s with lastOutputFrame := List.replicate fmt.frameSize 0 }
             else s
    let r := slowLoop fmt insertN dropN frames
      s.framesUntilNextInsert s.framesUntilNextDrop frames s
    let s := { r.state with
      framesUntilNextInsert := r.insertCtr
      framesUntilNextDrop := r.dropCtr }
    (s, r.out, r.err)

/-- Decode a little-endian signed 16-bit sample from two bytes. -/
def bytesToInt16 (lo hi : Nat) : Int :=
  let v := (lo + 256 * hi) % 65536
  if v ≥ 32768 then (v : Int) - 65536 else (v : Int)

/-- Encode a signed 16-bit sample to two little-endian bytes. -/
def int16ToBytes (x : Int) : List Nat :=
  let v := (x % 65536).toNat
  [v % 256, v / 256]

/-- One sample of `AudioPlayer._apply_volume`'s scaling step:
`(sample * amplitude).astype(np.int16)` with
`amplitude = (volume / 100.0) ** 3`.  numpy's float-to-int16 cast
truncates toward zero; the product is always in int16 range for
`0 < volume < 100`, so no wrapping occurs. -/
def scaleSample (volume : Int) (x : Int) : Int :=
  Frac.truncf (Frac.mul (Frac.ofInt x) ⟨volume * volume * volume, 1000000⟩)

/-- Apply a sample transform to an int16 little-endian byte buffer.
Buffers produced by the callback always have even length. -/
def mapSamples (f : Int → Int) : List Nat → List Nat
  | lo :: hi :: rest => int16ToBytes (f (bytesToInt16 lo hi)) ++ mapSamples f rest
  | l => l

/-- Source `AudioPlayer._apply_volume` on the written portion of the buffer. -/
def applyVolumeBytes (volume : Int) (muted : Bool) (data : List Nat) : List Nat :=
  if muted ∨ volume = 0 then List.replicate data.length 0
  else if volume = 100 then data
  else mapSamples (scaleSample volume) data

/-- Source `AudioPlayer._audio_callback`.  `frames` is the frame count supplied
by the device (the stream is opened with blocksize 2048); `dacUs` is
`int(time.outputBufferDacTime * 1e6)`; `loopUsA` / `loopUsB` are the two
loop-time reads (position update, start gating); `underflow` is the
status test `status.input_underflow or status.output_underflow`.
Returns the new state and the bytes written to the output buffer. -/
def audioCallback (ctime stime : Int → Int) (frames : Nat)
    (dacUs loopUsA loopUsB : Int) (underflow : Bool) (s : PlayerState) :
    PlayerState × List Nat :=
  match s.format with
  | none => (s, [])
  | some fmt =>
    let bytesNeeded := frames * fmt.frameSize
    if underflow then
      ({ s with clearRequested := true }, List.replicate bytesNeeded 0)
    else
      let s := updatePlaybackPositionFromDac ctime stime dacUs loopUsA s
      let filled : PlayerState × List Nat × Bool :=
        if s.playbackState = PlaybackState.waitingForStart then
          let g := handleStartGating fmt dacUs loopUsB frames s
          let s := g.1
          let gOut := g.2
          if s.playbackState = PlaybackState.waitingForStart then
            (s, gOut ++ List.replicate (bytesNeeded - gOut.length) 0, false)
          else
            let r := fillPlayingPath fmt frames s
            (r.1, gOut ++ r.2.1, r.2.2)
        else
          fillPlayingPath fmt frames s
      let s := filled.1
      let out := filled.2.1
      -- the `except` handler: pad with silence and reset the partial chunk
      let handled :=
        if filled.2.2 then
          ({ s with currentChunk := none, currentChunkOffset := 0 },
            out ++ List.replicate (bytesNeeded - out.length) 0)
        else (s, out)
      (handled.1, applyVolumeBytes handled.1.volume handled.1.muted handled.2)

/-- Source `AudioPlayer._log_sync_status` (only its state effects: the log
timestamp and the per-interval statistics reset). -/
def logSyncStatus (nowUs : Int) (s : PlayerState) : PlayerState :=
  if ¬s.syncErrorFilter.initialized then s
  else if nowUs - s.lastSyncErrorLogUs ≥ 1000000 then
    { s with
      lastSyncErrorLogUs := nowUs
      framesInsertedSinceLog := 0
      framesDroppedSinceLog := 0 }
  else s

/-- The first-chunk scheduling / start-time refresh block of
`AudioPlayer.submit` (the `if self._scheduled_start_loop_time_us is None`
chain).  `nowUs` is the loop-time read taken just before it. -/
def submitSchedule (ctime : Int → Int) (nowUs ts : Int) (s : PlayerState) :
    PlayerState :=
  if s.scheduledStartLoopTimeUs = none then
    let start := ctime ts
    let estDac := estimateDacTimeForServerTimestamp ctime ts s
    { s with
      scheduledStartLoopTimeUs := some start
      scheduledStartDacTimeUs := if estDac ≠ 0 then some estDac else none
      playbackState := PlaybackState.waitingForStart
      firstServerTimestampUs := some ts
      earlyStartSuspect :=
        if start - nowUs ≤ 700000 then true else s.earlyStartSuspect }
  else if s.playbackState = PlaybackState.waitingForStart
      ∧ s.firstServerTimestampUs ≠ none then
    let first := s.firstServerTimestampUs.getD 0
    let updated := ctime first
    if |updated - s.scheduledStartLoopTimeUs.getD 0| > 5000 then
      let estDac := estimateDacTimeForServerTimestamp ctime first s
      { s with
        scheduledStartLoopTimeUs := some updated
        scheduledStartDacTimeUs := if estDac ≠ 0 then some estDac else none }
    else s
  else s

/-- The sync-error / correction-scheduling block of `AudioPlayer.submit`.
`nowUs` is the loop-time read `_update_correction_schedule` performs. -/
def submitCorrection (nowUs : Int) (s : PlayerState) : PlayerState :=
  if s.playbackState = PlaybackState.playing
      ∧ s.lastKnownPlaybackPositionUs > 0
      ∧ s.serverTsCursorUs > 0 then
    updateCorrectionSchedule nowUs
      (s.lastKnownPlaybackPositionUs - s.serverTsCursorUs) s
  else s

/-- The gap/overlap reconciliation, enqueue and stream start-up tail of
`AudioPlayer.submit`.  The `overlap ... chunk skipped` branch returns
early without starting the stream, as in the source. -/
def submitEnqueue (fmt : PCMFormat) (ts : Int) (payload : List Nat)
    (s : PlayerState) : PlayerState :=
  let finish : Int → List Nat → PlayerState → PlayerState := fun ts payload s =>
    let s :=
      if payload.length > 0 then
        let chunkFrames := payload.length / fmt.frameSize
        let chunkDurationUs : Int := ((chunkFrames * 1000000) / fmt.sampleRate : Nat)
        { s with
          queue := s.queue ++ [⟨ts, payload⟩]
          queuedDurationUs := s.queuedDurationUs + chunkDurationUs
          expectedNextTimestamp := some (ts + chunkDurationUs) }
      else s
    if ¬s.streamStarted ∧ s.queue.length > 0 ∧ s.streamExists then
      { s with streamStarted := true }
    else s
  match s.expectedNextTimestamp with
  | none => finish ts payload { s with expectedNextTimestamp := some ts }
  | some expected =>
    if ts > expected then
      let gapUs := ts - expected
      let gapFrames := (gapUs * fmt.sampleRate) / 1000000
      let silence := List.replicate (gapFrames.toNat * fmt.frameSize) 0
      let silenceDurationUs := (gapFrames * 1000000) / (fmt.sampleRate : Int)
      finish ts payload
        { s with
          queue := s.queue ++ [⟨expected, silence⟩]
          queuedDurationUs := s.queuedDurationUs + silenceDurationUs
          expectedNextTimestamp := some ts }
    else if ts < expected then
      let overlapUs := expected - ts
      let overlapFrames := (overlapUs * fmt.sampleRate) / 1000000
      let trimBytes := overlapFrames.toNat * fmt.frameSize
      if trimBytes < payload.length then finish expected (payload.drop trimBytes) s
      else s
    else finish ts payload s

/-- Source `AudioPlayer.submit`.  `now1` is the loop-time read at the top of the
method, `now2` the one inside `_update_correction_schedule`, `now3` the
one inside `_log_sync_status`. -/
def submit (ctime : Int → Int) (now1 now2 now3 ts : Int) (payload : List Nat)
    (s : PlayerState) : PlayerState :=
  let s := if s.clearRequested then clear s else s
  match s.format with
  | none => s
  | some fmt =>
    if fmt.frameSize = 0 then s
    else if payload.length % fmt.frameSize ≠ 0 then s
    else
      let s := submitSchedule ctime now1 ts s
      let s := submitCorrection now2 s
      let s := logSyncStatus now3 s
      submitEnqueue fmt ts payload s

/-- Observer: does this `submit` call perform a re-anchor (take the
re-anchor branch of `_update_correction_schedule`)?  Replays the phases
of `submit` that run before the correction block and evaluates the
branch guard there. -/
def submitReanchorFires (ctime : Int → Int) (now1 now2 ts : Int)
    (payload : List Nat) (s : PlayerState) : Bool :=
  let s := if s.clearRequested then clear s else s
  match s.format with
  | none => false
  | some fmt =>
    if fmt.frameSize = 0 then false
    else if payload.length % fmt.frameSize ≠ 0 then false
    else
      let s := submitSchedule ctime now1 ts s
      if s.playbackState = PlaybackState.playing
          ∧ s.lastKnownPlaybackPositionUs > 0
          ∧ s.serverTsCursorUs > 0 then
        reanchorFires now2 (s.lastKnownPlaybackPositionUs - s.serverTsCursorUs) s
      else false

/-- One externally triggered operation on the player: the public API
calls, a correction-schedule update, or a device callback.  The clock
reads and device-supplied values are arbitrary. -/
inductive Step (ctime stime : Int → Int) : PlayerState → PlayerState → Prop
  | formatStep (fmt : PCMFormat) (s : PlayerState) :
      Step ctime stime s (setFormat fmt s)
  | volumeStep (v : Int) (m : Bool) (s : PlayerState) :
      Step ctime stime s (setVolume v m s)
  | stopStep (s : PlayerState) :
      Step ctime stime s (stopPlayer s)
  | clearStep (s : PlayerState) :
      Step ctime stime s (clear s)
  | submitStep (now1 now2 now3 ts : Int) (payload : List Nat) (s : PlayerState) :
      Step ctime stime s (submit ctime now1 now2 now3 ts payload s)
  | correctionStep (nowUs errorUs : Int) (s : PlayerState) :
      Step ctime stime s (updateCorrectionSchedule nowUs errorUs s)
  | callbackStep (frames : Nat) (dacUs loopUsA loopUsB : Int) (underflow : Bool)
      (s : PlayerState) :
      Step ctime stime s (audioCallback ctime stime frames dacUs loopUsA loopUsB underflow s).1

/-- States reachable from a freshly constructed player. -/
def Reachable (ctime stime : Int → Int) (device : Option Int) (s : PlayerState) :
    Prop :=
  Relation.ReflTransGen (Step ctime stime) (initState device) s

/-- Identity time conversion: a perfectly synchronized clock pair (slope
one, offset zero), the simplest legitimate environment. -/
def idf : Int → Int := fun x => x

/-- A mono 16-bit format at 1000 Hz (frame size two bytes).  The player
accepts any `PCMFormat`; this rate keeps the trace arithmetic exact. -/
def fmtA : PCMFormat := ⟨1000, 2⟩

/-- Invariant claimed by I3: at most one correction counter is active. -/
def CountersOk (s : PlayerState) : Prop :=
  s.insertEveryNFrames = 0 ∨ s.dropEveryNFrames = 0

/-- The pair of correction-plan counters, used to state that an operation
leaves the correction plan untouched. -/
def ctrs (s : PlayerState) : Nat × Nat := (s.insertEveryNFrames, s.dropEveryNFrames)

/-!
Concrete execution trace for claim C1.  Loop clock and DAC clock both
advance monotonically; all float computations along the trace are exact.
The first re-anchor fires inside the submit producing `c1s5` (at loop
time 21 100 000 µs); the second fires inside a submit from `c1s7` at loop
time 22 050 000 µs, only 950 000 µs later, because `clear` reset the
cooldown stamp to zero.
-/

def c1s1 : PlayerState := setFormat fmtA (initState none)

def c1s2 : PlayerState := submit idf 10000000 10000000 10000000 20000000 [0, 0, 0, 0] c1s1

def c1s3 : PlayerState :=
  (audioCallback idf idf 2048 10500000 20000000 20000000 false c1s2).1

def c1s4 : PlayerState :=
  (audioCallback idf idf 2048 11000000 21100000 21100000 false c1s3).1

def c1s5 : PlayerState := submit idf 21100000 21100000 21100000 21100000 [] c1s4

def c1s6 : PlayerState := submit idf 21150000 21150000 21150000 21100000 [0, 0, 0, 0] c1s5

def c1s7 : PlayerState :=
  (audioCallback idf idf 2048 11150000 22000000 22000000 false c1s6).1

/-- Witness state for the amended C1 theorem: a playing player with a
format whose filtered error will exceed the re-anchor threshold. -/
def c1w : PlayerState :=
  { setFormat fmtA (initState none) with playbackState := PlaybackState.playing }

/-!
Concrete execution trace for claim C2.  The player reaches `PLAYING`,
acquires a drop plan of one drop every 41 frames (filtered error
48 000 µs), and then runs a 2048-frame callback over a queue whose head
chunk is `c2p2` (byte values 100..199).  The first drop event happens
after 41 real frames: input frames 41 and 42 of `c2p2` (bytes 82–85) are
consumed and discarded, and the stale remembered frame (bytes 80–81,
values 180/181) is emitted in their place.
-/

def c2p1 : List Nat := List.replicate 60 0

def c2p2 : List Nat := (List.range 100).map (fun i => i + 100)

def c2s1 : PlayerState := setVolume 100 false (setFormat fmtA (initState none))

def c2s2 : PlayerState := submit idf 10000000 10000000 10000000 20000000 c2p1 c2s1

def c2s3 : PlayerState :=
  (audioCallback idf idf 2048 10500000 20000000 20000000 false c2s2).1

def c2s4 : PlayerState :=
  (audioCallback idf idf 2048 10578000 20078000 20078000 false c2s3).1

def c2s5 : PlayerState := submit idf 20100000 20100000 20100000 20030000 c2p2 c2s4

def c2res : PlayerState × List Nat :=
  audioCallback idf idf 2048 10600000 20100000 20100000 false c2s5

/-- Witness state for the amended C2 theorem: a player whose current
chunk holds five frames of distinct data, with a remembered output
frame. -/
def c2w : PlayerState :=
  { setFormat fmtA (initState none) with
    currentChunk := some ⟨0, [1, 2, 3, 4, 5, 6, 7, 8, 9, 10]⟩
    lastOutputFrame := [9, 9] }

/-!
Concrete two-submit scenario for claim C3 (the spec's P4 with the same
format as above: 100 ms chunks are 100 frames / 200 bytes).
-/

def c3p1 : List Nat := List.replicate 200 0

def c3p2 : List Nat := List.range 200

def c3s1 : PlayerState := setFormat fmtA (initState none)

def c3s2 : PlayerState := submit idf 0 0 0 0 c3p1 c3s1

def c3s3 : PlayerState := submit idf 0 0 0 40000 c3p2 c3s2

/-- Stopped player for claim C6. -/
def c6s : PlayerState := stopPlayer (setFormat fmtA (initState none))

def c6s2 : PlayerState := submit idf 0 0 0 1000 [0, 0] c6s

/-- Fresh formatted player for claim C7. -/
def c7s : PlayerState := setFormat fmtA (initState none)

def c7s2 : PlayerState := submit idf 0 0 0 1000 [] c7s

def c7s3 : PlayerState := submit idf 0 0 0 5000 [] c7s2

/-- Witness state for claim C9: a formatted player. -/
def c9w : PlayerState := setFormat fmtA (initState none)

/-!  ## Supporting lemmas -/

/-- Truncating division by 8 expressed through the volume-cube fraction:
the scaling factor stored for volume 50 is 125000/1000000 = 1/8. -/
theorem tdiv_cube50 (a : Int) : Int.tdiv (a * 125000) 1000000 = Int.tdiv a 8 := by
  have key : ∀ n : Nat, Int.tdiv ((n : Int) * 125000) 1000000 = Int.tdiv (n : Int) 8 := by
    intro n
    rw [Int.tdiv_eq_ediv (by positivity) (by norm_num),
      Int.tdiv_eq_ediv (by positivity) (by norm_num)]
    have h1 : ((n : Int) * 125000) = ((n * 125000 : Nat) : Int) := by push_cast; ring
    rw [h1]
    rw [show ((1000000 : Int)) = ((1000000 : Nat) : Int) by norm_num,
      show ((8 : Int)) = ((8 : Nat) : Int) by norm_num]
    rw [← Int.ofNat_ediv, ← Int.ofNat_ediv]
    congr 1
    rw [show (1000000 : Nat) = 125000 * 8 by norm_num, Nat.mul_comm n 125000,
      Nat.mul_div_mul_left _ _ (by norm_num)]
  rcases Int.eq_nat_or_neg a with ⟨n, rfl | rfl⟩
  · exact key n
  · rw [Int.neg_mul, Int.neg_tdiv, Int.neg_tdiv, key n]

theorem smooth_stream (e : Int) (s : PlayerState) :
    (smoothSyncError e s).streamExists = s.streamExists
    ∧ (smoothSyncError e s).streamStarted = s.streamStarted := ⟨rfl, rfl⟩

theorem ucs_stream (n e : Int) (s : PlayerState) :
    (updateCorrectionSchedule n e s).streamExists = s.streamExists
    ∧ ((updateCorrectionSchedule n e s).streamStarted = s.streamStarted
       ∨ (updateCorrectionSchedule n e s).streamStarted = false) := by
  simp only [updateCorrectionSchedule]
  split
  · exact ⟨rfl, Or.inl rfl⟩
  · split
    · exact ⟨rfl, Or.inl rfl⟩
    · split
      · exact ⟨rfl, Or.inl rfl⟩
      · split
        · exact ⟨rfl, Or.inr rfl⟩
        · split
          · exact ⟨rfl, Or.inl rfl⟩
          · exact ⟨rfl, Or.inl rfl⟩

theorem submitSchedule_stream (ctime : Int → Int) (n ts : Int) (s : PlayerState) :
    (submitSchedule ctime n ts s).streamExists = s.streamExists
    ∧ (submitSchedule ctime n ts s).streamStarted = s.streamStarted := by
  simp only [submitSchedule]
  split
  · exact ⟨rfl, rfl⟩
  · split
    · split
      · exact ⟨rfl, rfl⟩
      · exact ⟨rfl, rfl⟩
    · exact ⟨rfl, rfl⟩

theorem logSyncStatus_stream (n : Int) (s : PlayerState) :
    (logSyncStatus n s).streamExists = s.streamExists
    ∧ (logSyncStatus n s).streamStarted = s.streamStarted := by
  simp only [logSyncStatus]
  split
  · exact ⟨rfl, rfl⟩
  · split
    · exact ⟨rfl, rfl⟩
    · exact ⟨rfl, rfl⟩

theorem submitEnqueue_stream (fmt : PCMFormat) (ts : Int) (payload : List Nat)
    (s : PlayerState) (hex : s.streamExists = false) (hst : s.streamStarted = false) :
    (submitEnqueue fmt ts payload s).streamExists = false
    ∧ (submitEnqueue fmt ts payload s).streamStarted = false := by
  unfold submitEnqueue
  split <;> (try split) <;> (try split) <;>
    simp +zetaDelta only [] <;> split <;> simp_all

theorem advanceCursor_fields (fmt : PCMFormat) (n : Nat) (s : PlayerState) :
    (advanceServerCursorFrames fmt n s).currentChunk = s.currentChunk
    ∧ (advanceServerCursorFrames fmt n s).currentChunkOffset = s.currentChunkOffset
    ∧ (advanceServerCursorFrames fmt n s).lastOutputFrame = s.lastOutputFrame
    ∧ (advanceServerCursorFrames fmt n s).framesDroppedSinceLog = s.framesDroppedSinceLog := by
  simp only [advanceServerCursorFrames]
  split
  · exact ⟨rfl, rfl, rfl, rfl⟩
  · split
    · exact ⟨rfl, rfl, rfl, rfl⟩
    · exact ⟨rfl, rfl, rfl, rfl⟩

theorem advanceCursor_currentChunk (fmt : PCMFormat) (n : Nat) (s : PlayerState) :
    (advanceServerCursorFrames fmt n s).currentChunk = s.currentChunk :=
  (advanceCursor_fields fmt n s).1

theorem advanceCursor_currentChunkOffset (fmt : PCMFormat) (n : Nat) (s : PlayerState) :
    (advanceServerCursorFrames fmt n s).currentChunkOffset = s.currentChunkOffset :=
  (advanceCursor_fields fmt n s).2.1

theorem advanceCursor_lastOutputFrame (fmt : PCMFormat) (n : Nat) (s : PlayerState) :
    (advanceServerCursorFrames fmt n s).lastOutputFrame = s.lastOutputFrame :=
  (advanceCursor_fields fmt n s).2.2.1

theorem advanceCursor_framesDroppedSinceLog (fmt : PCMFormat) (n : Nat) (s : PlayerState) :
    (advanceServerCursorFrames fmt n s).framesDroppedSinceLog = s.framesDroppedSinceLog :=
  (advanceCursor_fields fmt n s).2.2.2

/-- One `_read_one_input_frame` call on a state whose current chunk still
has more than a full frame beyond the read: the offset advances by
exactly one frame, the chunk stays current, and the remembered last
output frame and statistics are untouched. -/
theorem readOne_consumes (fmt : PCMFormat) (s : PlayerState) (c : QueuedChunk)
    (hf : 0 < fmt.frameSize) (hc : s.currentChunk = some c)
    (hlen : s.currentChunkOffset + fmt.frameSize < c.audioData.length) :
    (readOneInputFrame fmt s).1.currentChunk = some c
    ∧ (readOneInputFrame fmt s).1.currentChunkOffset
        = s.currentChunkOffset + fmt.frameSize
    ∧ (readOneInputFrame fmt s).1.lastOutputFrame = s.lastOutputFrame
    ∧ (readOneInputFrame fmt s).1.framesDroppedSinceLog = s.framesDroppedSinceLog := by
  simp only [readOneInputFrame, hc]
  rw [if_neg (by omega : ¬fmt.frameSize = 0)]
  rw [if_neg (by omega : ¬s.currentChunkOffset ≥ c.audioData.length)]
  have hstop : min (s.currentChunkOffset + fmt.frameSize) c.audioData.length
      = s.currentChunkOffset + fmt.frameSize := by omega
  rw [hstop]
  split
  · next hge =>
      exfalso
      rw [advanceCursor_currentChunkOffset] at hge
      simp only [] at hge
      omega
  · refine ⟨?_, ?_, ?_, ?_⟩ <;>
      simp [advanceCursor_currentChunk, advanceCursor_currentChunkOffset,
        advanceCursor_lastOutputFrame, advanceCursor_framesDroppedSinceLog, hc]

/-!  Correction-plan preservation: every operation other than `clear` and
`_update_correction_schedule` leaves `insert_every_n_frames` and
`drop_every_n_frames` untouched.  Stated per field and registered with
simp so that composites close automatically. -/

@[simp] theorem pres_smooth (e : Int) (s : PlayerState) :
    (smoothSyncError e s).insertEveryNFrames = s.insertEveryNFrames
    ∧ (smoothSyncError e s).dropEveryNFrames = s.dropEveryNFrames := ⟨rfl, rfl⟩

@[simp] theorem pres_initCurrentChunk (s : PlayerState) :
    (initCurrentChunk s).insertEveryNFrames = s.insertEveryNFrames
    ∧ (initCurrentChunk s).dropEveryNFrames = s.dropEveryNFrames := by
  simp only [initCurrentChunk]
  split
  · exact ⟨rfl, rfl⟩
  · split <;> exact ⟨rfl, rfl⟩

@[simp] theorem pres_advanceCursor (fmt : PCMFormat) (n : Nat) (s : PlayerState) :
    (advanceServerCursorFrames fmt n s).insertEveryNFrames = s.insertEveryNFrames
    ∧ (advanceServerCursorFrames fmt n s).dropEveryNFrames = s.dropEveryNFrames := by
  simp only [advanceServerCursorFrames]
  split
  · exact ⟨rfl, rfl⟩
  · split <;> exact ⟨rfl, rfl⟩

@[simp] theorem pres_advanceFinished (fmt : PCMFormat) (s : PlayerState) :
    (advanceFinishedChunk fmt s).insertEveryNFrames = s.insertEveryNFrames
    ∧ (advanceFinishedChunk fmt s).dropEveryNFrames = s.dropEveryNFrames := by
  simp only [advanceFinishedChunk]
  split <;> exact ⟨rfl, rfl⟩

@[simp] theorem pres_readOne (fmt : PCMFormat) (s : PlayerState) :
    (readOneInputFrame fmt s).1.insertEveryNFrames = s.insertEveryNFrames
    ∧ (readOneInputFrame fmt s).1.dropEveryNFrames = s.dropEveryNFrames := by
  simp only [readOneInputFrame]
  repeat' split
  all_goals simp

@[simp] theorem pres_readBulkLoop (fmt : PCMFormat) :
    ∀ (fuel left : Nat) (s : PlayerState),
    (readBulkLoop fmt fuel left s).1.insertEveryNFrames = s.insertEveryNFrames
    ∧ (readBulkLoop fmt fuel left s).1.dropEveryNFrames = s.dropEveryNFrames
  | 0, _, s => ⟨rfl, rfl⟩
  | fuel + 1, left, s => by
    simp only [readBulkLoop]
    split
    · exact ⟨rfl, rfl⟩
    · repeat' split
      all_goals simp [pres_readBulkLoop fmt fuel]

@[simp] theorem pres_readBulk (fmt : PCMFormat) (n : Nat) (s : PlayerState) :
    (readInputFramesBulk fmt n s).1.insertEveryNFrames = s.insertEveryNFrames
    ∧ (readInputFramesBulk fmt n s).1.dropEveryNFrames = s.dropEveryNFrames := by
  simp only [readInputFramesBulk]
  repeat' split
  all_goals simp

@[simp] theorem pres_skipLoop (fmt : PCMFormat) :
    ∀ (fuel toSkip : Nat) (s : PlayerState),
    (skipLoop fmt fuel toSkip s).insertEveryNFrames = s.insertEveryNFrames
    ∧ (skipLoop fmt fuel toSkip s).dropEveryNFrames = s.dropEveryNFrames
  | 0, _, s => ⟨rfl, rfl⟩
  | fuel + 1, toSkip, s => by
    simp only [skipLoop]
    repeat' split
    all_goals simp [pres_skipLoop fmt fuel]

@[simp] theorem pres_skip (fmt : PCMFormat) (n : Nat) (s : PlayerState) :
    (skipInputFrames fmt n s).insertEveryNFrames = s.insertEveryNFrames
    ∧ (skipInputFrames fmt n s).dropEveryNFrames = s.dropEveryNFrames := by
  simp [skipInputFrames]

@[simp] theorem pres_gating (fmt : PCMFormat) (dacUs loopUs : Int) (frames : Nat)
    (s : PlayerState) :
    (handleStartGating fmt dacUs loopUs frames s).1.insertEveryNFrames
      = s.insertEveryNFrames
    ∧ (handleStartGating fmt dacUs loopUs frames s).1.dropEveryNFrames
      = s.dropEveryNFrames := by
  simp only [handleStartGating]
  repeat' split
  all_goals simp

@[simp] theorem pres_updatePosition (ctime stime : Int → Int) (dacUs loopUs : Int)
    (s : PlayerState) :
    (updatePlaybackPositionFromDac ctime stime dacUs loopUs s).insertEveryNFrames
      = s.insertEveryNFrames
    ∧ (updatePlaybackPositionFromDac ctime stime dacUs loopUs s).dropEveryNFrames
      = s.dropEveryNFrames := by
  simp only [updatePlaybackPositionFromDac]
  repeat' split
  all_goals simp

@[simp] theorem pres_dropEvent (fmt : PCMFormat) (s : PlayerState) :
    (dropEventConsume fmt s).insertEveryNFrames = s.insertEveryNFrames
    ∧ (dropEventConsume fmt s).dropEveryNFrames = s.dropEveryNFrames := by
  simp [dropEventConsume]

set_option maxHeartbeats 1000000 in
@[simp] theorem pres_slowLoop (fmt : PCMFormat) (insertN dropN : Nat) :
    ∀ (fuel : Nat) (ic dc : Int) (rem : Nat) (s : PlayerState),
    (slowLoop fmt insertN dropN fuel ic dc rem s).state.insertEveryNFrames
      = s.insertEveryNFrames
    ∧ (slowLoop fmt insertN dropN fuel ic dc rem s).state.dropEveryNFrames
      = s.dropEveryNFrames
  | 0, ic, dc, rem, s => ⟨rfl, rfl⟩
  | fuel + 1, ic, dc, rem, s => by
    simp only [slowLoop]
    repeat' split
    all_goals simp [pres_slowLoop fmt insertN dropN fuel]

@[simp] theorem pres_fillPlaying (fmt : PCMFormat) (frames : Nat) (s : PlayerState) :
    (fillPlayingPath fmt frames s).1.insertEveryNFrames = s.insertEveryNFrames
    ∧ (fillPlayingPath fmt frames s).1.dropEveryNFrames = s.dropEveryNFrames := by
  simp only [fillPlayingPath]
  repeat' split
  all_goals simp

@[simp] theorem pres_callback (ctime stime : Int → Int) (frames : Nat)
    (dacUs loopUsA loopUsB : Int) (underflow : Bool) (s : PlayerState) :
    (audioCallback ctime stime frames dacUs loopUsA loopUsB underflow s).1.insertEveryNFrames
      = s.insertEveryNFrames
    ∧ (audioCallback ctime stime frames dacUs loopUsA loopUsB underflow s).1.dropEveryNFrames
      = s.dropEveryNFrames := by
  simp only [audioCallback]
  repeat' split
  all_goals simp

@[simp] theorem pres_logSync (n : Int) (s : PlayerState) :
    (logSyncStatus n s).insertEveryNFrames = s.insertEveryNFrames
    ∧ (logSyncStatus n s).dropEveryNFrames = s.dropEveryNFrames := by
  simp only [logSyncStatus]
  repeat' split
  all_goals exact ⟨rfl, rfl⟩

@[simp] theorem pres_submitSchedule (ctime : Int → Int) (n ts : Int) (s : PlayerState) :
    (submitSchedule ctime n ts s).insertEveryNFrames = s.insertEveryNFrames
    ∧ (submitSchedule ctime n ts s).dropEveryNFrames = s.dropEveryNFrames := by
  simp only [submitSchedule]
  repeat' split
  all_goals exact ⟨rfl, rfl⟩

@[simp] theorem pres_submitEnqueue (fmt : PCMFormat) (ts : Int) (payload : List Nat)
    (s : PlayerState) :
    (submitEnqueue fmt ts payload s).insertEveryNFrames = s.insertEveryNFrames
    ∧ (submitEnqueue fmt ts payload s).dropEveryNFrames = s.dropEveryNFrames := by
  simp only [submitEnqueue]
  repeat' split
  all_goals simp

theorem CountersOk_clear (s : PlayerState) : CountersOk (clear s) := Or.inl rfl

theorem CountersOk_ucs (n e : Int) (s : PlayerState) (h : CountersOk s) :
    CountersOk (updateCorrectionSchedule n e s) := by
  simp only [updateCorrectionSchedule]
  split
  · exact h
  · split
    · exact h
    · split
      · exact Or.inl rfl
      · split
        · exact Or.inl rfl
        · split
          · exact Or.inl rfl
          · exact Or.inr rfl

theorem CountersOk_submit (ctime : Int → Int) (n1 n2 n3 ts : Int)
    (payload : List Nat) (s : PlayerState) (h : CountersOk s) :
    CountersOk (submit ctime n1 n2 n3 ts payload s) := by
  simp only [submit]
  have h0 : CountersOk (if s.clearRequested then clear s else s) := by
    split
    · exact CountersOk_clear s
    · exact h
  generalize (if s.clearRequested then clear s else s) = t at h0
  cases ht : t.format with
  | none => simpa [ht] using h0
  | some fmt =>
    simp only [ht]
    split
    · exact h0
    · split
      · exact h0
      · have h1 : CountersOk (submitSchedule ctime n1 ts t) := by
          have := pres_submitSchedule ctime n1 ts t
          unfold CountersOk at h0 ⊢
          rw [this.1, this.2]; exact h0
        have h2 : CountersOk (submitCorrection n2 (submitSchedule ctime n1 ts t)) := by
          simp only [submitCorrection]
          split
          · exact CountersOk_ucs _ _ _ h1
          · exact h1
        have h3 : CountersOk (logSyncStatus n3
            (submitCorrection n2 (submitSchedule ctime n1 ts t))) := by
          have := pres_logSync n3 (submitCorrection n2 (submitSchedule ctime n1 ts t))
          unfold CountersOk at h2 ⊢
          rw [this.1, this.2]; exact h2
        have := pres_submitEnqueue fmt ts payload
          (logSyncStatus n3 (submitCorrection n2 (submitSchedule ctime n1 ts t)))
        unfold CountersOk at h3 ⊢
        rw [this.1, this.2]; exact h3

theorem mapSamples_length (f : Int → Int) : ∀ l : List Nat, (mapSamples f l).length = l.length
  | lo :: hi :: rest => by
      simp [mapSamples, int16ToBytes, mapSamples_length f rest]
  | [] => rfl
  | [x] => rfl

theorem applyVolume_length (v : Int) (m : Bool) (l : List Nat) :
    (applyVolumeBytes v m l).length = l.length := by
  unfold applyVolumeBytes
  split
  · simp
  · split
    · rfl
    · exact mapSamples_length _ l

theorem initCC_cons (s : PlayerState) (c : QueuedChunk) (rest : List QueuedChunk)
    (h : s.queue = c :: rest) :
    (initCurrentChunk s).currentChunk = some c
    ∧ (initCurrentChunk s).currentChunkOffset = 0
    ∧ (initCurrentChunk s).queue = rest := by
  simp only [initCurrentChunk, h]
  split <;> exact ⟨rfl, rfl, rfl⟩

theorem advanceCursor_queue (fmt : PCMFormat) (n : Nat) (s : PlayerState) :
    (advanceServerCursorFrames fmt n s).queue = s.queue := by
  simp only [advanceServerCursorFrames]
  split
  · rfl
  · split <;> rfl

theorem advanceFinished_queue (fmt : PCMFormat) (s : PlayerState) :
    (advanceFinishedChunk fmt s).queue = s.queue := by
  simp only [advanceFinishedChunk]
  split <;> rfl

theorem advanceFinished_chunk (fmt : PCMFormat) (s : PlayerState) :
    (advanceFinishedChunk fmt s).currentChunk = none := by
  simp only [advanceFinishedChunk]
  split
  · next h => exact h
  · rfl

theorem readBulkLoop_go (fmt : PCMFormat) (fuel left : Nat) (s : PlayerState) (c : QueuedChunk)
    (hc : s.currentChunk = some c) (h0 : ¬left = 0)
    (ih : ∀ (left2 : Nat) (s2 : PlayerState),
      left2 + 2 * s2.queue.length + (if s2.currentChunk.isSome then 1 else 0) + 1 ≤ fuel →
      (readBulkLoop fmt fuel left2 s2).2.1.length = left2)
    (hM : left + 2 * s.queue.length + 1 ≤ fuel) :
    (readBulkLoop fmt (fuel + 1) left s).2.1.length = left := by
  simp only [readBulkLoop]
  rw [if_neg h0]
  rw [if_neg (by simp [hc] : ¬(s.currentChunk.isNone ∧ ¬s.queue.isEmpty))]
  simp only [hc]
  rw [List.length_append]
  have hAlen : (List.take ((c.audioData.length - s.currentChunkOffset) ⊓ left)
      (List.drop s.currentChunkOffset c.audioData)).length
      = (c.audioData.length - s.currentChunkOffset) ⊓ left := by
    rw [List.length_take, List.length_drop]
    omega
  rw [hAlen]
  have hle : (c.audioData.length - s.currentChunkOffset) ⊓ left ≤ left :=
    min_le_right _ _
  rw [Nat.add_comm]
  conv_rhs => rw [← Nat.sub_add_cancel hle]
  congr 1
  refine ih _ _ ?_
  split
  · rw [advanceFinished_queue, advanceCursor_queue]
    simp only [advanceFinished_chunk, Option.isSome_none, Bool.false_eq_true, if_false]
    simp
    omega
  · next hcond =>
      rw [advanceCursor_currentChunkOffset] at hcond
      rw [advanceCursor_queue]
      simp at hcond
      simp
      split <;> omega

theorem readBulkLoop_shift (fmt : PCMFormat) (fuel left : Nat) (s : PlayerState)
    (hn : s.currentChunk = none) (hq : ¬s.queue = []) (h0 : ¬left = 0) :
    readBulkLoop fmt (fuel + 1) left s
      = readBulkLoop fmt (fuel + 1) left (initCurrentChunk s) := by
  cases hql : s.queue with
  | nil => exact absurd hql hq
  | cons c rest =>
    obtain ⟨hc2, -, -⟩ := initCC_cons s c rest hql
    simp only [readBulkLoop, if_neg h0]
    rw [if_pos (by simp [hn, hql]), if_neg (by simp [hc2])]

theorem readBulkLoop_len (fmt : PCMFormat) :
    ∀ (fuel left : Nat) (s : PlayerState),
      left + 2 * s.queue.length + (if s.currentChunk.isSome then 1 else 0) + 1 ≤ fuel →
      (readBulkLoop fmt fuel left s).2.1.length = left := by
  intro fuel
  induction fuel with
  | zero => intro left s h; omega
  | succ fuel ih =>
    intro left s hM
    by_cases h0 : left = 0
    · subst h0; simp [readBulkLoop]
    · cases hc : s.currentChunk with
      | some c =>
        refine readBulkLoop_go fmt fuel left s c hc h0 ih ?_
        rw [hc] at hM
        simp at hM
        omega
      | none =>
        cases hql : s.queue with
        | nil =>
          simp only [readBulkLoop, if_neg h0]
          rw [if_neg (by simp [hql])]
          simp [hc, List.length_replicate]
        | cons c rest =>
          rw [readBulkLoop_shift fmt fuel left s hc (by simp [hql]) h0]
          obtain ⟨hc2, -, hq2⟩ := initCC_cons s c rest hql
          refine readBulkLoop_go fmt fuel left (initCurrentChunk s) c hc2 h0 ih ?_
          rw [hq2]
          rw [hc, hql] at hM
          simp at hM
          omega

theorem readBulk_len (fmt : PCMFormat) (nFrames : Nat) (s : PlayerState) :
    (readInputFramesBulk fmt nFrames s).2.length = nFrames * fmt.frameSize := by
  by_cases h0 : nFrames = 0
  · subst h0; simp [readInputFramesBulk]
  · simp only [readInputFramesBulk, if_neg h0]
    exact readBulkLoop_len fmt _ _ s (by split <;> omega)

theorem seg_event_eq {fs rem n L F : Nat} (hn : n ≤ rem) (h2 : rem - n ≠ 0)
    (hF : F = fs) (hL : L = (rem - n - 1) * fs) :
    n * fs + (F + L) = rem * fs := by
  subst hF; subst hL
  have h3 : rem = n + 1 + (rem - n - 1) := by omega
  conv_rhs => rw [h3]
  ring

theorem seg_event_le {fs rem n L F : Nat} (hn : n ≤ rem) (h2 : rem - n ≠ 0)
    (hF : F = fs) (hL : L ≤ (rem - n - 1) * fs) :
    n * fs + (F + L) ≤ rem * fs := by
  rw [hF]
  calc n * fs + (fs + L) ≤ n * fs + (fs + (rem - n - 1) * fs) :=
        Nat.add_le_add_left (Nat.add_le_add_left hL fs) (n * fs)
  _ = rem * fs := seg_event_eq hn h2 rfl rfl

theorem seg_event_eq0 {fs rem L F : Nat} (h2 : rem ≠ 0) (hF : F = fs)
    (hL : L = (rem - 1) * fs) : F + L = rem * fs := by
  subst hF; subst hL
  have h3 : rem = 1 + (rem - 1) := by omega
  conv_rhs => rw [h3]
  ring

theorem seg_event_le0 {fs rem L F : Nat} (h2 : rem ≠ 0) (hF : F = fs)
    (hL : L ≤ (rem - 1) * fs) : F + L ≤ rem * fs := by
  rw [hF]
  calc fs + L ≤ fs + (rem - 1) * fs := Nat.add_le_add_left hL fs
  _ = rem * fs := seg_event_eq0 h2 rfl rfl

theorem gating_out_le (fmt : PCMFormat) (dacUs loopUs : Int) (frames : Nat)
    (s : PlayerState) :
    (handleStartGating fmt dacUs loopUs frames s).2.length ≤ frames * fmt.frameSize := by
  simp only [handleStartGating]
  repeat' split
  all_goals simp only [List.length_replicate, List.length_nil]
  all_goals first
  | exact Nat.zero_le _
  | exact Nat.mul_le_mul_right _ (min_le_right _ _)

theorem gating_exit (fmt : PCMFormat) (dacUs loopUs : Int) (frames : Nat)
    (s : PlayerState) (hw : s.playbackState = PlaybackState.waitingForStart) :
    (handleStartGating fmt dacUs loopUs frames s).1.playbackState
        = PlaybackState.waitingForStart
    ∨ (handleStartGating fmt dacUs loopUs frames s).2 = [] := by
  simp only [handleStartGating]
  repeat' split
  all_goals first
  | exact Or.inr rfl
  | exact Or.inl hw
  | (exfalso; omega)

theorem slowLoop_le (fmt : PCMFormat) (insertN dropN : Nat) :
    ∀ (fuel : Nat) (ic dc : Int) (rem : Nat) (s : PlayerState),
      (slowLoop fmt insertN dropN fuel ic dc rem s).out.length ≤ rem * fmt.frameSize := by
  intro fuel
  induction fuel with
  | zero => intro ic dc rem s; exact Nat.zero_le _
  | succ fuel ih =>
    intro ic dc rem s
    by_cases hiN : insertN > 0 <;> by_cases hdN : dropN > 0 <;>
      simp only [slowLoop, hiN, hdN, if_true, if_false] <;>
      repeat' split
    all_goals try simp_all only [List.length_append, List.length_nil,
      List.length_replicate, Nat.zero_add, Nat.add_zero]
    all_goals first
    | exact Nat.zero_le _
    | (rw [readBulk_len]; exact Nat.mul_le_mul_right _ (by omega))
    | (rw [readBulk_len, Nat.add_assoc]
       refine seg_event_le (by omega) (by omega) rfl (ih _ _ _ _))
    | (refine seg_event_le0 (by omega) rfl (ih _ _ _ _))

theorem slowLoop_complete (fmt : PCMFormat) (insertN dropN : Nat) :
    ∀ (fuel : Nat) (ic dc : Int) (rem : Nat) (s : PlayerState), rem ≤ fuel →
      (slowLoop fmt insertN dropN fuel ic dc rem s).err = false →
      (slowLoop fmt insertN dropN fuel ic dc rem s).out.length = rem * fmt.frameSize := by
  intro fuel
  induction fuel with
  | zero =>
    intro ic dc rem s hle _
    have h0 : rem = 0 := Nat.le_zero.mp hle
    subst h0
    simp [slowLoop]
  | succ fuel ih =>
    intro ic dc rem s hle
    by_cases hiN : insertN > 0 <;> by_cases hdN : dropN > 0 <;>
      simp only [slowLoop, hiN, hdN, if_true, if_false, and_true, and_false,
        true_and, false_and] <;>
      repeat' split
    all_goals try simp_all only [List.length_append, List.length_nil,
      List.length_replicate, Nat.zero_add, Nat.add_zero, Nat.zero_mul,
      Bool.true_eq_false, false_implies, implies_true]
    all_goals first
    | (intro herr
       rw [readBulk_len]
       congr 1
       omega)
    | (intro herr
       rw [readBulk_len, Nat.add_assoc]
       exact seg_event_eq (by omega) (by omega) rfl (ih _ _ _ _ (by omega) herr))
    | (intro herr
       exact seg_event_eq0 (by omega) rfl (ih _ _ _ _ (by omega) herr))

theorem fillPlaying_le (fmt : PCMFormat) (frames : Nat) (s : PlayerState) :
    (fillPlayingPath fmt frames s).2.1.length ≤ frames * fmt.frameSize := by
  simp only [fillPlayingPath]
  split
  · exact le_of_eq (readBulk_len fmt frames s)
  · exact slowLoop_le fmt _ _ frames _ _ frames _

theorem fillPlaying_exact (fmt : PCMFormat) (frames : Nat) (s : PlayerState)
    (he : (fillPlayingPath fmt frames s).2.2 = false) :
    (fillPlayingPath fmt frames s).2.1.length = frames * fmt.frameSize := by
  by_cases hfast : s.insertEveryNFrames = 0 ∧ s.dropEveryNFrames = 0
  · simp only [fillPlayingPath, if_pos hfast]
    exact readBulk_len fmt frames s
  · simp only [fillPlayingPath, if_neg hfast] at he ⊢
    exact slowLoop_complete fmt _ _ frames _ _ frames _ le_rfl he

theorem handled_len (bn : Nat) (E : PlayerState × List Nat × Bool) (X Y : PlayerState)
    (h : E.2.1.length ≤ bn ∧ (E.2.2 = false → E.2.1.length = bn)) :
    ((if E.2.2 = true then (X, E.2.1 ++ List.replicate (bn - E.2.1.length) 0)
      else (Y, E.2.1)).2).length = bn := by
  split
  · dsimp only
    rw [List.length_append, List.length_replicate]
    exact Nat.add_sub_cancel' h.1
  · next hne => exact h.2 (Bool.eq_false_iff.mpr hne)

/-!  ## Claim theorems -/

/-- Claim C10: a freshly constructed player reports volume 60 and
muted false, and the scaling step therefore multiplies by
(60/100)^3 = 216000/1000000 rather than leaving samples unchanged
(sample 100 becomes 21, the truncation of 21.6). -/
theorem C10_default_volume (device : Option Int) :
    (initState device).volume = 60 ∧ (initState device).muted = false
    ∧ (60 : Int) * 60 * 60 = 216000
    ∧ scaleSample 60 100 = 21
    ∧ applyVolumeBytes 60 false [100, 0] = [21, 0]
    ∧ applyVolumeBytes 60 false [100, 0] ≠ [100, 0] :=
  ⟨rfl, rfl, by decide, by decide, by decide, by decide⟩

/-- Claim C4 counterexample: at volume 50 the code maps the input sample
15 to 1 (numpy truncates toward zero), while the claim's round(15 × 0.125)
is 2. -/
theorem C4_counterexample :
    applyVolumeBytes 50 false [15, 0] = [1, 0]
    ∧ int16ToBytes (Frac.pyRound (Frac.divf (Frac.ofInt 15) (Frac.ofInt 8))) = [2, 0]
    ∧ ([1, 0] : List Nat) ≠ [2, 0] := by
  refine ⟨by decide, by decide, by decide⟩

/-- Claim C4 (amended): for volume 50 and muted false every output
sample is the input times 0.125 truncated toward zero, i.e. the input
tdiv 8 (0.125 is exactly representable, and the scaled value is always in
int16 range, so the cast never wraps and the clipping is vacuous). -/
theorem C4_volume_half_truncates (x : Int) :
    scaleSample 50 x = Int.tdiv x 8 := by
  unfold scaleSample Frac.truncf Frac.mul Frac.ofInt
  simpa using tdiv_cube50 x

/-- Claim C5 counterexample: after set_volume(30, muted := true), clear
leaves volume 30 and muted true, while the freshly constructed values are
60 and false — clear does not reset every field other than format and
device binding. -/
theorem C5_counterexample :
    (clear (setVolume 30 true (initState none))).volume = 30
    ∧ (clear (setVolume 30 true (initState none))).muted = true
    ∧ (initState none).volume = 60
    ∧ (initState none).muted = false
    ∧ (30 : Int) ≠ 60 := by
  refine ⟨rfl, rfl, rfl, rfl, by decide⟩

/-- Claim C5 (amended): clear resets every state field except the format,
the device binding, the stream handle, the volume, the mute flag and the
closed flag; those six keep their previous values. -/
theorem C5_clear_resets (s : PlayerState) :
    clear s = { initState s.device with
      format := s.format
      streamExists := s.streamExists
      volume := s.volume
      muted := s.muted
      closed := s.closed } := rfl

/-- Claim C3 counterexample: in the P4 scenario (100 ms chunk at t = 0,
then 100 ms chunk at t = 40 ms, format 1000 Hz mono 16-bit), the stored
expected_next_timestamp after the second submit is 140 000 µs, not the
claimed 240 000 µs. -/
theorem C3_counterexample :
    c3s3.expectedNextTimestamp = some 140000
    ∧ some (140000 : Int) ≠ some (240000 : Int) := by
  refine ⟨by decide, by decide⟩

/-- Claim C3 (amended): the second chunk's first 60 ms (120 bytes) are
trimmed from its payload head, its stored timestamp becomes 100 ms, and
expected_next_timestamp becomes 140 ms (100 ms plus the 40 ms that remain
of the trimmed chunk). -/
theorem C3_overlap_trims :
    c3s2.expectedNextTimestamp = some 100000
    ∧ c3s3.queue = [⟨0, c3p1⟩, ⟨100000, c3p2.drop 120⟩]
    ∧ (c3p2.drop 120).length = 80
    ∧ c3s3.expectedNextTimestamp = some 140000 := by
  refine ⟨by decide, by decide, by decide, by decide⟩

/-- Claim C7 counterexample: submitting a zero-length payload to a fresh
formatted player is not a state-preserving drop — it passes the alignment
check and performs first-chunk scheduling: the playback state moves to
WAITING_FOR_START, a start time is scheduled, and
expected_next_timestamp is initialized. -/
theorem C7_counterexample :
    c7s.playbackState = PlaybackState.initializing
    ∧ c7s.scheduledStartLoopTimeUs = none
    ∧ c7s.expectedNextTimestamp = none
    ∧ c7s2.playbackState = PlaybackState.waitingForStart
    ∧ c7s2.scheduledStartLoopTimeUs = some 1000
    ∧ c7s2.expectedNextTimestamp = some 1000 := by
  refine ⟨rfl, rfl, rfl, by decide, by decide, by decide⟩

/-- Claim C7 (amended): a zero-length payload is never itself enqueued,
but it is not rejected either: it still triggers first-chunk scheduling
and expected-timestamp updates, and a gap detected against it enqueues a
synthetic silence chunk and can even start the stream. -/
theorem C7_empty_payload_effects :
    c7s2.queue = []
    ∧ c7s2.queuedDurationUs = 0
    ∧ c7s2.streamStarted = false
    ∧ c7s3.queue = [⟨1000, List.replicate 8 0⟩]
    ∧ c7s3.expectedNextTimestamp = some 5000
    ∧ c7s3.streamStarted = true := by
  refine ⟨by decide, by decide, by decide, by decide, by decide, by decide⟩

/-- Claim C6 counterexample: after stop() the player is marked closed and
the stream is gone, yet a subsequent submit still mutates the state: it
schedules a start, transitions to WAITING_FOR_START and enqueues the
chunk (the source never reads the closed flag in submit). -/
theorem C6_counterexample :
    c6s.closed = true
    ∧ c6s.queue.length = 0
    ∧ c6s.scheduledStartLoopTimeUs = none
    ∧ c6s2.queue.length = 1
    ∧ c6s2.scheduledStartLoopTimeUs = some 1000
    ∧ c6s2.playbackState = PlaybackState.waitingForStart := by
  refine ⟨rfl, rfl, rfl, by decide, by decide, by decide⟩

/-- Claim C6 (amended): after stop() the stream handle is gone, so a
subsequent submit — although it still mutates the queue and the
scheduling state — can never start the device stream: with no stream and
the stream not started, submit leaves both facts in place for every
timestamp and payload. -/
theorem C6_stopped_submit_never_starts_stream (ctime : Int → Int)
    (n1 n2 n3 ts : Int) (payload : List Nat) (s : PlayerState)
    (hex : s.streamExists = false) (hst : s.streamStarted = false) :
    (submit ctime n1 n2 n3 ts payload s).streamExists = false
    ∧ (submit ctime n1 n2 n3 ts payload s).streamStarted = false := by
  unfold submit
  have h0 : (if s.clearRequested then clear s else s).streamExists = false
      ∧ (if s.clearRequested then clear s else s).streamStarted = false := by
    split
    · exact ⟨hex, rfl⟩
    · exact ⟨hex, hst⟩
  generalize hgen : (if s.clearRequested then clear s else s) = t at h0 ⊢
  obtain ⟨hex0, hst0⟩ := h0
  cases hf : t.format with
  | none => simp only [hf]; exact ⟨hex0, hst0⟩
  | some fmt =>
    simp only [hf]
    by_cases hz : fmt.frameSize = 0
    · rw [if_pos hz]; exact ⟨hex0, hst0⟩
    · rw [if_neg hz]
      by_cases ha : payload.length % fmt.frameSize ≠ 0
      · rw [if_pos ha]; exact ⟨hex0, hst0⟩
      · rw [if_neg ha]
        have h1 := submitSchedule_stream ctime n1 ts t
        set t1 := submitSchedule ctime n1 ts t with ht1
        have hex1 : t1.streamExists = false := h1.1.trans hex0
        have hst1 : t1.streamStarted = false := h1.2.trans hst0
        have h2 : (submitCorrection n2 t1).streamExists = false
            ∧ (submitCorrection n2 t1).streamStarted = false := by
          unfold submitCorrection
          split
          · have h3 := ucs_stream n2
              (t1.lastKnownPlaybackPositionUs - t1.serverTsCursorUs) t1
            refine ⟨h3.1.trans hex1, ?_⟩
            rcases h3.2 with h | h
            · exact h.trans hst1
            · exact h
          · exact ⟨hex1, hst1⟩
        set t2 := submitCorrection n2 t1 with ht2
        have h4 := logSyncStatus_stream n3 t2
        set t3 := logSyncStatus n3 t2 with ht3
        have hex3 : t3.streamExists = false := h4.1.trans h2.1
        have hst3 : t3.streamStarted = false := h4.2.trans h2.2
        exact submitEnqueue_stream fmt ts payload t3 hex3 hst3

/-- Claim C6 amended witness: the concrete stopped player of the
counterexample has no stream, and the submit that mutates its queue still
leaves the stream unstarted. -/
theorem C6_stopped_submit_witness :
    c6s.streamExists = false ∧ c6s.streamStarted = false
    ∧ (submit idf 0 0 0 1000 [0, 0] c6s).streamStarted = false :=
  ⟨rfl, rfl,
    (C6_stopped_submit_never_starts_stream idf 0 0 0 1000 [0, 0] c6s rfl rfl).2⟩

/-- Claim C1 counterexample: an execution with two re-anchors 950 000 µs
apart.  From a fresh player, four steps reach the playing state `c1s4`
whose filtered sync error is 1 098 000 µs; the submit at loop time
21 100 000 µs re-anchors (the guard `submitReanchorFires` is true) and
produces `c1s5`, in which the cooldown stamp is 0 again because `clear`
reset it.  Two further steps resume playback (`c1s7`), and a submit at
loop time 22 050 000 µs re-anchors again — 950 000 µs after the first,
well inside the claimed 5 000 000 µs suppression window. -/
theorem C1_counterexample :
    Reachable idf idf none c1s4
    ∧ submitReanchorFires idf 21100000 21100000 21100000 [] c1s4 = true
    ∧ c1s5 = submit idf 21100000 21100000 21100000 21100000 [] c1s4
    ∧ c1s5.lastReanchorLoopTimeUs = 0
    ∧ c1s5.playbackState = PlaybackState.initializing
    ∧ Relation.ReflTransGen (Step idf idf) c1s5 c1s7
    ∧ submitReanchorFires idf 22050000 22050000 21102000 [] c1s7 = true
    ∧ (22050000 : Int) - 21100000 < 5000000 := by
  refine ⟨?_, by decide, rfl, by decide, by decide, ?_, by decide, by decide⟩
  · exact Relation.ReflTransGen.tail (Relation.ReflTransGen.tail
      (Relation.ReflTransGen.tail (Relation.ReflTransGen.single
        (Step.formatStep fmtA _))
        (Step.submitStep 10000000 10000000 10000000 20000000 [0, 0, 0, 0] _))
      (Step.callbackStep 2048 10500000 20000000 20000000 false _))
      (Step.callbackStep 2048 11000000 21100000 21100000 false _)
  · exact Relation.ReflTransGen.tail (Relation.ReflTransGen.single
      (Step.submitStep 21150000 21150000 21150000 21100000 [0, 0, 0, 0] _))
      (Step.callbackStep 2048 11150000 22000000 22000000 false _)

/-- Claim C1 (amended): the cooldown stamp written by the re-anchor
branch is immediately erased by the `clear` it invokes — whenever the
re-anchor guard fires, the resulting state carries cooldown stamp 0 (and
is back in INITIALIZING with an empty queue), so a later divergence is
suppressed only while the absolute loop clock is below 5 000 000 µs, not
for 5 000 000 µs after the re-anchor. -/
theorem C1_reanchor_erases_cooldown (nowUs errorUs : Int) (s : PlayerState)
    (h : reanchorFires nowUs errorUs s = true) :
    (updateCorrectionSchedule nowUs errorUs s).lastReanchorLoopTimeUs = 0
    ∧ (updateCorrectionSchedule nowUs errorUs s).playbackState = PlaybackState.initializing
    ∧ (updateCorrectionSchedule nowUs errorUs s).queue = [] := by
  rcases hfmt : s.format with _ | fmt
  · simp only [reanchorFires, hfmt] at h; exact absurd h (by simp)
  · simp only [reanchorFires, hfmt] at h
    simp only [updateCorrectionSchedule, hfmt]
    by_cases hz : fmt.sampleRate = 0
    · rw [if_pos hz] at h; simp at h
    · rw [if_neg hz] at h
      rw [if_neg hz]
      by_cases hd : Frac.lef (Frac.absf (smoothSyncError errorUs s).syncErrorFilteredUs)
          (Frac.ofInt 2000)
      · rw [if_pos hd] at h; simp at h
      · rw [if_neg hd] at h
        rw [if_neg hd]
        have hC := of_decide_eq_true h
        rw [if_pos hC]
        exact ⟨rfl, rfl, rfl⟩

/-- Claim C1 amended witness: at the concrete playing state `c1w`, the
re-anchor guard fires for error 600 000 µs at loop time 10 000 000 µs,
and the resulting state has cooldown stamp 0 and is INITIALIZING. -/
theorem C1_reanchor_witness :
    reanchorFires 10000000 600000 c1w = true
    ∧ (updateCorrectionSchedule 10000000 600000 c1w).lastReanchorLoopTimeUs = 0
    ∧ (updateCorrectionSchedule 10000000 600000 c1w).playbackState
        = PlaybackState.initializing :=
  ⟨by decide, (C1_reanchor_erases_cooldown 10000000 600000 c1w (by decide)).1,
    (C1_reanchor_erases_cooldown 10000000 600000 c1w (by decide)).2.1⟩

/-- Claim C2 counterexample: a reachable execution of the callback's slow
path whose first drop event does not emit the last of the two frames it
consumes.  In the final 2048-frame callback from `c2s5`
(drop plan: one drop every 41 frames), output frames 0–40 are the first
41 frames of the queued chunk `c2p2`, and the drop event then consumes
input frames 41 and 42 (bytes 82–85, values 182–185) while emitting the
remembered previous output frame (bytes 80–81, values 180/181) into
output frame 41 (output bytes 82–83).  The claim predicts output bytes
82–83 would equal the last consumed frame, bytes 84–85 of `c2p2`. -/
theorem C2_counterexample :
    Reachable idf idf none c2s5
    ∧ c2s5.dropEveryNFrames = 41
    ∧ c2res = audioCallback idf idf 2048 10600000 20100000 20100000 false c2s5
    ∧ (c2res.2.drop 82).take 2 = [180, 181]
    ∧ (c2p2.drop 84).take 2 = [184, 185]
    ∧ (c2res.2.drop 82).take 2 ≠ (c2p2.drop 84).take 2 := by
  refine ⟨?_, by decide, rfl, by decide, by decide, by decide⟩
  exact Relation.ReflTransGen.tail (Relation.ReflTransGen.tail
    (Relation.ReflTransGen.tail (Relation.ReflTransGen.tail
      (Relation.ReflTransGen.tail
        (Relation.ReflTransGen.single (Step.formatStep fmtA _))
        (Step.volumeStep 100 false _))
      (Step.submitStep 10000000 10000000 10000000 20000000 c2p1 _))
      (Step.callbackStep 2048 10500000 20000000 20000000 false _))
    (Step.callbackStep 2048 10578000 20078000 20078000 false _))
    (Step.submitStep 20100000 20100000 20100000 20030000 c2p2 _)

/-- Claim C2 (amended): at a drop event the slow path consumes two frames
from the input (two `_read_one_input_frame` calls, advancing the chunk
offset by two frames) and emits exactly one frame, but the frame emitted
is the previously remembered last output frame — the consumption leaves
`lastOutputFrame` untouched, so the emission duplicates older audio
instead of the last consumed frame.  (The countdown reset to
drop_every_N is performed by the enclosing loop, see `slowLoop`.) -/
theorem C2_drop_event (fmt : PCMFormat) (s : PlayerState) (c : QueuedChunk)
    (hf : 0 < fmt.frameSize) (hc : s.currentChunk = some c)
    (hlen : s.currentChunkOffset + 2 * fmt.frameSize < c.audioData.length) :
    (dropEventConsume fmt s).currentChunkOffset
      = s.currentChunkOffset + 2 * fmt.frameSize
    ∧ (dropEventConsume fmt s).currentChunk = some c
    ∧ (dropEventConsume fmt s).lastOutputFrame = s.lastOutputFrame
    ∧ (dropEventConsume fmt s).framesDroppedSinceLog
      = s.framesDroppedSinceLog + 1 := by
  unfold dropEventConsume
  have h1 := readOne_consumes fmt s c hf hc (by omega)
  set t1 := (readOneInputFrame fmt s).1 with ht1
  have h2 := readOne_consumes fmt t1 c hf h1.1 (by rw [h1.2.1]; omega)
  set t2 := (readOneInputFrame fmt t1).1 with ht2
  refine ⟨?_, ?_, ?_, ?_⟩ <;> simp only []
  · rw [h2.2.1, h1.2.1]; ring
  · exact h2.1
  · exact h2.2.2.1.trans h1.2.2.1
  · rw [h2.2.2.2, h1.2.2.2]

/-- Claim C2 amended witness: on the concrete state `c2w` (current chunk
bytes 1..10, remembered output frame [9, 9]) the drop event advances the
offset by two frames (four bytes), keeps the chunk current, and leaves
the emitted `lastOutputFrame` at [9, 9] — not bytes 3/4 of the chunk. -/
theorem C2_drop_event_witness :
    0 < fmtA.frameSize ∧ c2w.currentChunk = some ⟨0, [1, 2, 3, 4, 5, 6, 7, 8, 9, 10]⟩
    ∧ c2w.currentChunkOffset + 2 * fmtA.frameSize < 10
    ∧ (dropEventConsume fmtA c2w).currentChunkOffset = 4
    ∧ (dropEventConsume fmtA c2w).lastOutputFrame = [9, 9] := by
  have h := C2_drop_event fmtA c2w ⟨0, [1, 2, 3, 4, 5, 6, 7, 8, 9, 10]⟩
    (by decide) (by decide) (by decide)
  exact ⟨by decide, by decide, by decide, h.1.trans (by decide), h.2.2.1.trans (by decide)⟩

/-- Claim C8: in every state reachable from a fresh player by any
sequence of operations (set_format, set_volume, stop, clear, submit,
correction-schedule updates and audio callbacks), at most one of
insert_every_n_frames and drop_every_n_frames is nonzero. -/
theorem C8_counters_exclusive (ctime stime : Int → Int) (device : Option Int)
    (s : PlayerState) (h : Reachable ctime stime device s) :
    s.insertEveryNFrames = 0 ∨ s.dropEveryNFrames = 0 := by
  induction h with
  | refl => exact Or.inl rfl
  | tail hab hbc ih =>
    cases hbc with
    | formatStep fmt => exact ih
    | volumeStep v m => exact ih
    | stopStep => exact ih
    | clearStep => exact CountersOk_clear _
    | submitStep n1 n2 n3 ts payload =>
        exact CountersOk_submit ctime n1 n2 n3 ts payload _ ih
    | correctionStep n e => exact CountersOk_ucs n e _ ih
    | callbackStep frames dacUs lA lB uf =>
        rename_i b
        have hp := pres_callback ctime stime frames dacUs lA lB uf b
        rcases ih with h0 | h0
        · exact Or.inl (hp.1.trans h0)
        · exact Or.inr (hp.2.trans h0)

/-- Claim C8 witness: a concrete one-step execution (a clear on the fresh
player) satisfies the counter-exclusivity invariant. -/
theorem C8_counters_witness :
    Reachable idf idf none (clear (initState none))
    ∧ ((clear (initState none)).insertEveryNFrames = 0
       ∨ (clear (initState none)).dropEveryNFrames = 0) :=
  ⟨Relation.ReflTransGen.single (Step.clearStep _),
    C8_counters_exclusive idf idf none _
      (Relation.ReflTransGen.single (Step.clearStep _))⟩

/-- Claim C9: for every invocation of the audio callback with a format set,
the callback terminates (the fuel handed to each loop embedding is proved
sufficient, so every source loop runs to completion) and writes exactly
frames x frame_size bytes to the output buffer -- real audio, duplicated
frames or silence padding -- in every playback state, for every correction
plan and countdown values, and for every queue content. -/
theorem C9_callback_writes_exact (ctime stime : Int → Int) (frames : Nat)
    (dacUs loopUsA loopUsB : Int) (underflow : Bool) (s : PlayerState)
    (fmt : PCMFormat) (hf : s.format = some fmt) :
    ((audioCallback ctime stime frames dacUs loopUsA loopUsB underflow s).2).length
      = frames * fmt.frameSize := by
  simp only [audioCallback, hf]
  split
  · simp
  · dsimp only
    rw [applyVolume_length]
    refine handled_len _ _ _ _ ?_
    split
    next hw =>
      split
      next hstay =>
        dsimp only
        constructor
        · rw [List.length_append, List.length_replicate]
          exact le_of_eq (Nat.add_sub_cancel' (gating_out_le _ _ _ _ _))
        · intro h2
          rw [List.length_append, List.length_replicate]
          exact Nat.add_sub_cancel' (gating_out_le _ _ _ _ _)
      next hmove =>
        rcases gating_exit fmt dacUs loopUsB frames _ hw with hstay2 | hnil
        · exact absurd hstay2 hmove
        · dsimp only
          rw [hnil]
          constructor
          · simpa using fillPlaying_le fmt frames _
          · intro he
            simpa using fillPlaying_exact fmt frames _ he
    next hplay =>
      exact ⟨fillPlaying_le fmt frames _, fun he => fillPlaying_exact fmt frames _ he⟩

/-- Witness for C9: a freshly formatted player (1000 Hz, 2-byte frames),
a 3-frame callback request. -/
theorem C9_callback_writes_exact_witness :
    c9w.format = some fmtA
    ∧ ((audioCallback idf idf 3 0 0 0 false c9w).2).length = 3 * fmtA.frameSize :=
  ⟨rfl, C9_callback_writes_exact idf idf 3 0 0 0 false c9w fmtA rfl⟩

end LVA
